import Mathlib

/-!
Shallow embedding of `src/chunk_type.rs` (PNGme chunk-type core): a
validated 4-byte identifier with construction, validation, equality and
textual rendering, modelled as executable Lean definitions.

Bytes (Rust `u8`) are modelled as `Nat`; a Rust `[u8; 4]` is modelled as a
`Byte4` structure with one field per index. Fallible Rust code is modelled
with `Except` / explicit result inductives; a Rust panic (from `.unwrap()`)
is modelled as an explicit `crash` constructor of the result type.
-/

/-- Model of Rust `[u8; 4]`: four bytes, indexed 0..3. -/
structure Byte4 where
  b0 : Nat
  b1 : Nat
  b2 : Nat
  b3 : Nat
deriving DecidableEq, Repr

/-- Model of `u8::is_ascii_uppercase`: the byte is in `A` (65) through `Z` (90) (65..=90). -/
def isAsciiUppercase (b : Nat) : Bool :=
  65 ≤ b && b ≤ 90

/-- Model of `u8::is_ascii_lowercase`: the byte is in `a` (97) through `z` (122) (97..=122). -/
def isAsciiLowercase (b : Nat) : Bool :=
  97 ≤ b && b ≤ 122

/-- Model of `u8::is_ascii_alphabetic`: ASCII uppercase or lowercase letter. -/
def isAsciiAlphabetic (b : Nat) : Bool :=
  isAsciiUppercase b || isAsciiLowercase b

/-- Spec-side reading of "the byte is an ASCII letter (upper or lower
case)", stated directly as numeric ranges; used in claim statements and
compared against the code-side `isAsciiAlphabetic`. -/
def isAsciiLetter (b : Nat) : Prop :=
  (65 ≤ b ∧ b ≤ 90) ∨ (97 ≤ b ∧ b ≤ 122)

instance (b : Nat) : Decidable (isAsciiLetter b) := by
  unfold isAsciiLetter
  infer_instance

/-- Model of `struct ChunkType { chunk: [u8; 4] }` -/
structure ChunkType where
  chunk : Byte4
deriving DecidableEq, Repr

namespace ChunkType

/-- Model of `ChunkType::new`: stores the bytes verbatim, no validation. -/
def new (chunk : Byte4) : ChunkType :=
  { chunk }

/-- Model of `ChunkType::bytes`: returns the stored array. -/
def bytes (c : ChunkType) : Byte4 :=
  c.chunk

/-- Model of `ChunkType::is_reserved_bit_valid`: `self.chunk[2].is_ascii_uppercase()`. -/
def is_reserved_bit_valid (c : ChunkType) : Bool :=
  isAsciiUppercase c.chunk.b2

/-- Model of `ChunkType::is_critical`: `self.chunk[0].is_ascii_uppercase()`. -/
def is_critical (c : ChunkType) : Bool :=
  isAsciiUppercase c.chunk.b0

/-- Model of `ChunkType::is_public`: `self.chunk[1].is_ascii_uppercase()`. -/
def is_public (c : ChunkType) : Bool :=
  isAsciiUppercase c.chunk.b1

/-- Model of `ChunkType::is_safe_to_copy`: `self.chunk[3].is_ascii_lowercase()`. -/
def is_safe_to_copy (c : ChunkType) : Bool :=
  isAsciiLowercase c.chunk.b3

/-- Model of `ChunkType::is_alphabetic`: the source loops over the four bytes and
returns `false` at the first byte failing `is_ascii_alphabetic`; its
denotation is the conjunction over the four bytes in index order. -/
def is_alphabetic (c : ChunkType) : Bool :=
  isAsciiAlphabetic c.chunk.b0 && isAsciiAlphabetic c.chunk.b1 &&
    isAsciiAlphabetic c.chunk.b2 && isAsciiAlphabetic c.chunk.b3

/-- Model of `ChunkType::is_valid`: `condition1 = is_reserved_bit_valid`,
`condition2 = is_alphabetic`, result `condition1 && condition2`. -/
def is_valid (c : ChunkType) : Bool :=
  let condition1 := c.is_reserved_bit_valid
  let condition2 := c.is_alphabetic
  condition1 && condition2

/-- Model of `impl TryFrom<[u8; 4]> for ChunkType`: builds via `new`, then returns
`Ok` when alphabetic and an error message otherwise. -/
def try_from (value : Byte4) : Except String ChunkType :=
  let new_chunk := ChunkType.new value
  if new_chunk.is_alphabetic then Except.ok new_chunk
  else Except.error "Chunk is not valid"

/-- Model of `impl PartialEq for ChunkType`: the source zips the two arrays and
returns `false` at the first differing pair; its denotation is byte-wise
equality of the four pairs in index order. -/
def eq (a other : ChunkType) : Bool :=
  (a.chunk.b0 == other.chunk.b0) && (a.chunk.b1 == other.chunk.b1) &&
    (a.chunk.b2 == other.chunk.b2) && (a.chunk.b3 == other.chunk.b3)

/-- Outcome of `FromStr::from_str`: `Ok`, `Err(msg)`, or a panic raised by
`<&[u8; 4]>::try_from(slice).unwrap()` when the input is not 4 bytes. -/
inductive FromStrResult where
  | ok (c : ChunkType)
  | err (msg : String)
  | crash
deriving DecidableEq, Repr

/-- Model of `impl FromStr for ChunkType`, taking the UTF-8 bytes of the input
string (`s.as_bytes()`): when the slice has exactly 4 bytes it builds via
`new` and applies the alphabetic check; otherwise the
`try_into().unwrap()` panics, modelled by the `crash` constructor. -/
def from_str (s : List Nat) : FromStrResult :=
  match s with
  | [a, b, c, d] =>
    let new_chunk := ChunkType.new ⟨a, b, c, d⟩
    if new_chunk.is_alphabetic then FromStrResult.ok new_chunk
    else FromStrResult.err "Chunk is invalid"
  | _ => FromStrResult.crash

/-- One step of the UTF-8 acceptance automaton (RFC 3629 well-formed byte
sequences, the check performed by `String::from_utf8`). State 0 expects a
sequence start; states 1 and 2 expect 1 resp. 2 unrestricted continuation
bytes; states 3 to 7 expect a range-restricted continuation byte first.
Returns `none` on a byte the current state rejects. -/
def utf8Step (st b : Nat) : Option Nat :=
  match st with
  | 0 =>
    if b ≤ 127 then some 0
    else if 194 ≤ b && b ≤ 223 then some 1
    else if b = 224 then some 3
    else if (225 ≤ b && b ≤ 236) || b = 238 || b = 239 then some 2
    else if b = 237 then some 4
    else if b = 240 then some 5
    else if 241 ≤ b && b ≤ 243 then some 6
    else if b = 244 then some 7
    else none
  | 1 => if 128 ≤ b && b ≤ 191 then some 0 else none
  | 2 => if 128 ≤ b && b ≤ 191 then some 1 else none
  | 3 => if 160 ≤ b && b ≤ 191 then some 1 else none
  | 4 => if 128 ≤ b && b ≤ 159 then some 1 else none
  | 5 => if 144 ≤ b && b ≤ 191 then some 2 else none
  | 6 => if 128 ≤ b && b ≤ 191 then some 2 else none
  | 7 => if 128 ≤ b && b ≤ 143 then some 2 else none
  | _ => none

/-- Runs the UTF-8 automaton from a state over a byte list; accepts when
every byte is consumed and the final state expects a new sequence. -/
def utf8ValidFrom (st : Nat) : List Nat → Bool
  | [] => st == 0
  | b :: rest =>
    match utf8Step st b with
    | some st2 => utf8ValidFrom st2 rest
    | none => false

/-- UTF-8 validity of a byte list: run the automaton from the start state. -/
def utf8Valid (l : List Nat) : Bool :=
  utf8ValidFrom 0 l

/-- Outcome of `Display::fmt`: the UTF-8 bytes of the rendered text, or a
panic raised by `String::from_utf8(...).unwrap()` on invalid UTF-8. -/
inductive RenderResult where
  | ok (bytes : List Nat)
  | crash
deriving DecidableEq, Repr

/-- Model of `impl Display for ChunkType`: `String::from_utf8(self.chunk.to_vec())`
succeeds exactly on valid UTF-8 and the bytes of the rendered string are the
bytes of the chunk; on invalid UTF-8 the `.unwrap()` panics. -/
def display (c : ChunkType) : RenderResult :=
  let l := [c.chunk.b0, c.chunk.b1, c.chunk.b2, c.chunk.b3]
  if utf8Valid l then RenderResult.ok l else RenderResult.crash

end ChunkType

section Lemmas

/-- An alphabetic byte is an ASCII byte (below 128). -/
theorem isAsciiAlphabetic_lt_128 (b : Nat) (h : isAsciiAlphabetic b = true) :
    b ≤ 127 := by
  simp [isAsciiAlphabetic, isAsciiUppercase, isAsciiLowercase] at h
  omega

/-- A 4-byte list of ASCII bytes is valid UTF-8. -/
theorem utf8Valid_of_ascii4 (a b c d : Nat)
    (ha : a ≤ 127) (hb : b ≤ 127) (hc : c ≤ 127) (hd : d ≤ 127) :
    ChunkType.utf8Valid [a, b, c, d] = true := by
  simp [ChunkType.utf8Valid, ChunkType.utf8ValidFrom, ChunkType.utf8Step,
    ha, hb, hc, hd]

/-- The code-side alphabetic byte check agrees with the spec-side ASCII
letter ranges. -/
theorem isAsciiAlphabetic_iff_letter (b : Nat) :
    isAsciiAlphabetic b = true ↔ isAsciiLetter b := by
  simp [isAsciiAlphabetic, isAsciiUppercase, isAsciiLowercase, isAsciiLetter]

/-- The chunk-level alphabetic check holds iff each of the four bytes is an
ASCII letter. -/
theorem is_alphabetic_iff_letters (c : ChunkType) :
    c.is_alphabetic = true ↔
      (isAsciiLetter c.chunk.b0 ∧ isAsciiLetter c.chunk.b1 ∧
        isAsciiLetter c.chunk.b2 ∧ isAsciiLetter c.chunk.b3) := by
  simp [ChunkType.is_alphabetic, Bool.and_eq_true, isAsciiAlphabetic_iff_letter,
    and_assoc]

/-- An ASCII letter byte is below 128. -/
theorem isAsciiLetter_le_127 (b : Nat) (h : isAsciiLetter b) : b ≤ 127 := by
  rcases h with ⟨h1, h2⟩ | ⟨h1, h2⟩ <;> omega

end Lemmas

section Claims

/-- C1: the claim states that for every text input whose UTF-8 encoding is
not exactly 4 bytes, `from_str` returns a WrongLength error value and never
crashes. The code instead calls `try_into().unwrap()`, which panics on any
input that is not exactly 4 bytes: every non-4-byte input crashes, and no
error value is ever returned for them. The concrete conjunct evaluates the
code at the 2-byte input "Ru". -/
theorem from_str_wrong_length_crashes :
    (∀ s : List Nat, s.length = 4 ∨
      ChunkType.from_str s = ChunkType.FromStrResult.crash) ∧
    ChunkType.from_str [82, 117] = ChunkType.FromStrResult.crash := by
  refine ⟨?_, rfl⟩
  intro s
  match s with
  | [] => exact Or.inr rfl
  | [a] => exact Or.inr rfl
  | [a, b] => exact Or.inr rfl
  | [a, b, c] => exact Or.inr rfl
  | [a, b, c, d] => exact Or.inl rfl
  | a :: b :: c :: d :: e :: r => exact Or.inr rfl

/-- C2: byte construction via `TryFrom` succeeds iff all four bytes are
ASCII letters; otherwise it returns the non-alphabetic error value. The
last conjunct shows the reserved-bit condition is not required for
success: "Rust" (byte 2 lowercase) is accepted. -/
theorem try_from_ok_iff_alphabetic (b : Byte4) :
    ((∃ c, ChunkType.try_from b = Except.ok c) ↔
      (isAsciiLetter b.b0 ∧ isAsciiLetter b.b1 ∧
        isAsciiLetter b.b2 ∧ isAsciiLetter b.b3)) ∧
    ((∃ c, ChunkType.try_from b = Except.ok c) ∨
      ChunkType.try_from b = Except.error "Chunk is not valid") ∧
    ChunkType.try_from ⟨82, 117, 115, 116⟩ =
      Except.ok (ChunkType.new ⟨82, 117, 115, 116⟩) := by
  have halpha := is_alphabetic_iff_letters (ChunkType.new b)
  by_cases h : (ChunkType.new b).is_alphabetic = true
  · refine ⟨⟨fun _ => halpha.mp h, fun _ => ?_⟩, Or.inl ?_, rfl⟩ <;>
      exact ⟨ChunkType.new b, by simp [ChunkType.try_from, h]⟩
  · refine ⟨⟨fun hex => ?_, fun hl => absurd (halpha.mpr hl) h⟩, Or.inr ?_, rfl⟩
    · obtain ⟨c, hc⟩ := hex
      simp [ChunkType.try_from, h] at hc
    · simp [ChunkType.try_from, h]

/-- C2 witness: at the all-letter input "RuSt" the success side of the
equivalence holds. -/
theorem try_from_ok_iff_alphabetic_witness :
    ∃ c, ChunkType.try_from ⟨82, 117, 83, 116⟩ = Except.ok c :=
  (try_from_ok_iff_alphabetic ⟨82, 117, 83, 116⟩).1.mpr
    ⟨by decide, by decide, by decide, by decide⟩

/-- C3: for every 4-character all-ASCII-letter text, `from_str` succeeds
and `Display` renders the same byte sequence back, in original order and
case. -/
theorem from_str_display_round_trip (a b c d : Nat)
    (ha : isAsciiLetter a) (hb : isAsciiLetter b)
    (hc : isAsciiLetter c) (hd : isAsciiLetter d) :
    ChunkType.from_str [a, b, c, d] =
      ChunkType.FromStrResult.ok (ChunkType.new ⟨a, b, c, d⟩) ∧
    (ChunkType.new ⟨a, b, c, d⟩).display = ChunkType.RenderResult.ok [a, b, c, d] := by
  have halpha : (ChunkType.new ⟨a, b, c, d⟩).is_alphabetic = true :=
    (is_alphabetic_iff_letters _).mpr ⟨ha, hb, hc, hd⟩
  refine ⟨by simp [ChunkType.from_str, halpha], ?_⟩
  have hv := utf8Valid_of_ascii4 a b c d
    (isAsciiLetter_le_127 a ha) (isAsciiLetter_le_127 b hb)
    (isAsciiLetter_le_127 c hc) (isAsciiLetter_le_127 d hd)
  simp [ChunkType.display, ChunkType.new, hv]

/-- C3 witness: the round trip at the concrete text "RuSt". -/
theorem from_str_display_round_trip_witness :
    ChunkType.from_str [82, 117, 83, 116] =
      ChunkType.FromStrResult.ok (ChunkType.new ⟨82, 117, 83, 116⟩) ∧
    (ChunkType.new ⟨82, 117, 83, 116⟩).display =
      ChunkType.RenderResult.ok [82, 117, 83, 116] :=
  from_str_display_round_trip 82 117 83 116
    (by decide) (by decide) (by decide) (by decide)

/-- C4: for every 4-byte sequence of ASCII letters, `TryFrom` succeeds and
the stored bytes returned by `bytes()` are exactly the input, unchanged. -/
theorem try_from_preserves_letter_bytes (b : Byte4)
    (h0 : isAsciiLetter b.b0) (h1 : isAsciiLetter b.b1)
    (h2 : isAsciiLetter b.b2) (h3 : isAsciiLetter b.b3) :
    ChunkType.try_from b = Except.ok (ChunkType.new b) ∧
    (ChunkType.new b).bytes = b := by
  have halpha : (ChunkType.new b).is_alphabetic = true :=
    (is_alphabetic_iff_letters _).mpr ⟨h0, h1, h2, h3⟩
  exact ⟨by simp [ChunkType.try_from, halpha], rfl⟩

/-- C4 witness: at the concrete bytes of "RuSt". -/
theorem try_from_preserves_letter_bytes_witness :
    ChunkType.try_from ⟨82, 117, 83, 116⟩ =
      Except.ok (ChunkType.new ⟨82, 117, 83, 116⟩) ∧
    (ChunkType.new ⟨82, 117, 83, 116⟩).bytes = ⟨82, 117, 83, 116⟩ :=
  try_from_preserves_letter_bytes ⟨82, 117, 83, 116⟩
    (by decide) (by decide) (by decide) (by decide)

/-- C5: `is_critical`, `is_public` and `is_reserved_bit_valid` hold iff
byte 0, 1 resp. 2 is an ASCII uppercase letter, and `is_safe_to_copy`
holds iff byte 3 is an ASCII lowercase letter. -/
theorem case_predicates_match_byte_case (ct : ChunkType) :
    (ct.is_critical = true ↔ 65 ≤ ct.chunk.b0 ∧ ct.chunk.b0 ≤ 90) ∧
    (ct.is_public = true ↔ 65 ≤ ct.chunk.b1 ∧ ct.chunk.b1 ≤ 90) ∧
    (ct.is_reserved_bit_valid = true ↔ 65 ≤ ct.chunk.b2 ∧ ct.chunk.b2 ≤ 90) ∧
    (ct.is_safe_to_copy = true ↔ 97 ≤ ct.chunk.b3 ∧ ct.chunk.b3 ≤ 122) := by
  refine ⟨?_, ?_, ?_, ?_⟩ <;>
    simp [ChunkType.is_critical, ChunkType.is_public,
      ChunkType.is_reserved_bit_valid, ChunkType.is_safe_to_copy,
      isAsciiUppercase, isAsciiLowercase]

/-- C5 witness: the first byte of "RuSt" (82) is uppercase, so the value
is critical. -/
theorem case_predicates_match_byte_case_witness :
    (ChunkType.new ⟨82, 117, 83, 116⟩).is_critical = true :=
  (case_predicates_match_byte_case (ChunkType.new ⟨82, 117, 83, 116⟩)).1.mpr
    (by decide)

/-- C6: `is_valid` holds iff all four bytes are ASCII letters and byte 2
is an ASCII uppercase letter; equivalently it is the conjunction of
`is_alphabetic` and `is_reserved_bit_valid`. -/
theorem is_valid_iff_alphabetic_and_reserved (ct : ChunkType) :
    (ct.is_valid = true ↔
      (ct.is_alphabetic = true ∧ 65 ≤ ct.chunk.b2 ∧ ct.chunk.b2 ≤ 90)) ∧
    ct.is_valid = (ct.is_alphabetic && ct.is_reserved_bit_valid) := by
  constructor
  · simp [ChunkType.is_valid, ChunkType.is_reserved_bit_valid,
      isAsciiUppercase, Bool.and_eq_true]
    tauto
  · simp [ChunkType.is_valid, Bool.and_comm]

/-- C6 witness: "RuSt" is alphabetic with byte 2 uppercase, hence valid. -/
theorem is_valid_iff_alphabetic_and_reserved_witness :
    (ChunkType.new ⟨82, 117, 83, 116⟩).is_valid = true :=
  (is_valid_iff_alphabetic_and_reserved (ChunkType.new ⟨82, 117, 83, 116⟩)).1.mpr
    ⟨by decide, by decide, by decide⟩

/-- C7: the `PartialEq` implementation holds iff all four corresponding
bytes are identical; in particular it is case-sensitive, so "RuSt" and
"ruSt" compare unequal while "RuSt" equals itself. -/
theorem eq_iff_bytes_equal (ct other : ChunkType) :
    (ChunkType.eq ct other = true ↔
      (ct.chunk.b0 = other.chunk.b0 ∧ ct.chunk.b1 = other.chunk.b1 ∧
        ct.chunk.b2 = other.chunk.b2 ∧ ct.chunk.b3 = other.chunk.b3)) ∧
    ChunkType.eq (ChunkType.new ⟨82, 117, 83, 116⟩)
      (ChunkType.new ⟨114, 117, 83, 116⟩) = false ∧
    ChunkType.eq (ChunkType.new ⟨82, 117, 83, 116⟩)
      (ChunkType.new ⟨82, 117, 83, 116⟩) = true := by
  refine ⟨?_, by decide, by decide⟩
  simp [ChunkType.eq, Bool.and_eq_true, and_assoc]

/-- C7 witness: two values with identical bytes compare equal. -/
theorem eq_iff_bytes_equal_witness :
    ChunkType.eq (ChunkType.new ⟨65, 98, 67, 100⟩)
      (ChunkType.new ⟨65, 98, 67, 100⟩) = true :=
  (eq_iff_bytes_equal (ChunkType.new ⟨65, 98, 67, 100⟩)
    (ChunkType.new ⟨65, 98, 67, 100⟩)).1.mpr (by decide)

/-- C8: raw construction via `ChunkType::new` stores any 4-byte sequence
verbatim, with no validation; `bytes()` returns it exactly, also for
non-letter and non-ASCII bytes such as the concrete conjunct. -/
theorem new_stores_bytes_verbatim :
    (∀ b : Byte4, (ChunkType.new b).bytes = b) ∧
    (ChunkType.new ⟨255, 0, 10, 200⟩).bytes = ⟨255, 0, 10, 200⟩ :=
  ⟨fun _ => rfl, rfl⟩

/-- C8 witness: a concrete raw construction returns its bytes unchanged. -/
theorem new_stores_bytes_verbatim_witness :
    (ChunkType.new ⟨1, 2, 3, 4⟩).bytes = ⟨1, 2, 3, 4⟩ :=
  new_stores_bytes_verbatim.1 ⟨1, 2, 3, 4⟩

/-- C9: every value produced by a successful fallible construction, via
`TryFrom` on bytes or `from_str` on text, satisfies `is_alphabetic`; the
model has no mutation, so the property is preserved for the lifetime of
the value. -/
theorem fallible_construction_yields_alphabetic :
    (∀ (b : Byte4) (ct : ChunkType),
      ChunkType.try_from b = Except.ok ct → ct.is_alphabetic = true) ∧
    (∀ (s : List Nat) (ct : ChunkType),
      ChunkType.from_str s = ChunkType.FromStrResult.ok ct →
        ct.is_alphabetic = true) := by
  constructor
  · intro b ct h
    simp only [ChunkType.try_from] at h
    split at h
    · obtain rfl : ChunkType.new b = ct := by injection h
      assumption
    · exact absurd h (by simp)
  · intro s ct h
    match s with
    | [] => exact absurd h (by simp [ChunkType.from_str])
    | [a] => exact absurd h (by simp [ChunkType.from_str])
    | [a, b] => exact absurd h (by simp [ChunkType.from_str])
    | [a, b, c] => exact absurd h (by simp [ChunkType.from_str])
    | a :: b :: c :: d :: e :: r => exact absurd h (by simp [ChunkType.from_str])
    | [a, b, c, d] =>
      simp only [ChunkType.from_str] at h
      split at h
      · obtain rfl : ChunkType.new ⟨a, b, c, d⟩ = ct := by injection h
        assumption
      · exact absurd h (by simp)

/-- C9 witness: applies the invariant to the successful construction of
"RuSt" from bytes. -/
theorem fallible_construction_yields_alphabetic_witness :
    (ChunkType.new ⟨82, 117, 83, 116⟩).is_alphabetic = true :=
  fallible_construction_yields_alphabetic.1 ⟨82, 117, 83, 116⟩
    (ChunkType.new ⟨82, 117, 83, 116⟩) rfl

/-- C10: rendering is total under the alphabetic invariant, because four
ASCII-letter bytes are always valid UTF-8, so the internal
`String::from_utf8` unwrap cannot fail; but for the raw-constructed value
with bytes `[255, 255, 255, 255]`, which are not valid UTF-8, rendering
panics (modelled by `crash`). -/
theorem display_total_on_alphabetic :
    (∀ ct : ChunkType, ct.is_alphabetic = true →
      ct.display = ChunkType.RenderResult.ok
        [ct.chunk.b0, ct.chunk.b1, ct.chunk.b2, ct.chunk.b3]) ∧
    (ChunkType.new ⟨255, 255, 255, 255⟩).display = ChunkType.RenderResult.crash := by
  refine ⟨?_, by decide⟩
  intro ct h
  obtain ⟨h0, h1, h2, h3⟩ := (is_alphabetic_iff_letters ct).mp h
  have hv := utf8Valid_of_ascii4 ct.chunk.b0 ct.chunk.b1 ct.chunk.b2 ct.chunk.b3
    (isAsciiLetter_le_127 _ h0) (isAsciiLetter_le_127 _ h1)
    (isAsciiLetter_le_127 _ h2) (isAsciiLetter_le_127 _ h3)
  simp [ChunkType.display, hv]

/-- C10 witness: the all-letter value "RuSt" renders successfully. -/
theorem display_total_on_alphabetic_witness :
    (ChunkType.new ⟨82, 117, 83, 116⟩).display =
      ChunkType.RenderResult.ok [82, 117, 83, 116] :=
  display_total_on_alphabetic.1 (ChunkType.new ⟨82, 117, 83, 116⟩) (by decide)

end Claims
